import Mathlib

/-!
Verification of the move-advancement and session-state logic of the
scripted chess demo (src/main.py).

The repository code is a thin sequencing layer over an external chess
rules collaborator (the python-chess library).  Following the spec
(sections 1, 6 and the glossary), that collaborator is modelled here as
standard chess: board representation, pseudo-legal and legal move
generation, SAN parsing and matching mirroring the collaborator
interface push_san, and terminal-state detection mirroring
is_game_over.  Everything below the Session structure is the model of
that external collaborator; the Session structure and the functions on
it are translated directly from src/main.py.
-/

set_option maxRecDepth 16000
set_option maxHeartbeats 4000000

namespace ImmortalDemo

/-- The two chess colors. -/
inductive Color where
  | white
  | black
  deriving DecidableEq

/-- The opposite color. -/
def Color.other : Color → Color
  | .white => .black
  | .black => .white

/-- The six chess piece kinds. -/
inductive PieceType where
  | pawn
  | knight
  | bishop
  | rook
  | queen
  | king
  deriving DecidableEq

/-- A colored piece. -/
structure Piece where
  color : Color
  ptype : PieceType
  deriving DecidableEq

/--
A chess position, as held by the rules collaborator: 64 squares
(index = rank * 8 + file, a1 = 0, h8 = 63), side to move, castling
rights, en-passant target square, halfmove clock and fullmove number.
-/
structure Board where
  squares : List (Option Piece)
  turn : Color
  castleWK : Bool
  castleWQ : Bool
  castleBK : Bool
  castleBQ : Bool
  epSquare : Option Nat
  halfmoveClock : Nat
  fullmoveNumber : Nat
  deriving DecidableEq

/-- The piece standing on a square (none when empty or out of range). -/
def pieceAt (b : Board) (sq : Nat) : Option Piece :=
  b.squares.getD sq none

/-- File (column) of a square, 0 = file a. -/
def fileOf (sq : Nat) : Int :=
  Int.ofNat (sq % 8)

/-- Rank (row) of a square, 0 = rank 1. -/
def rankOf (sq : Nat) : Int :=
  Int.ofNat (sq / 8)

/-- Square index from file and rank when both are on the board. -/
def sqOf (f r : Int) : Option Nat :=
  if 0 ≤ f ∧ f < 8 ∧ 0 ≤ r ∧ r < 8 then some (r.toNat * 8 + f.toNat) else none

/-- Sign of an integer, used for ray directions. -/
def sign (x : Int) : Int :=
  if 0 < x then 1 else if x < 0 then -1 else 0

/--
Walks from (f, r) one step at a time in direction (df, dr) and decides
whether the squares strictly between the start and (tf, tr) are empty.
The fuel argument bounds the walk; 8 always suffices on an 8x8 board.
-/
def pathClear (b : Board) (f r tf tr df dr : Int) : Nat → Bool
  | 0 => false
  | fuel + 1 =>
    if f + df = tf ∧ r + dr = tr then true
    else
      match sqOf (f + df) (r + dr) with
      | none => false
      | some sq => (pieceAt b sq).isNone && pathClear b (f + df) (r + dr) tf tr df dr fuel

/-- Whether the piece p standing on fromSq attacks toSq. -/
def attacks (b : Board) (p : Piece) (fromSq toSq : Nat) : Bool :=
  let df := fileOf toSq - fileOf fromSq
  let dr := rankOf toSq - rankOf fromSq
  if df = 0 ∧ dr = 0 then false
  else
    match p.ptype with
    | .pawn => (dr == (if p.color == Color.white then 1 else -1)) && (df == 1 || df == -1)
    | .knight => df * df + dr * dr == 5
    | .king => df * df ≤ 1 && dr * dr ≤ 1
    | .bishop =>
      df * df == dr * dr &&
        pathClear b (fileOf fromSq) (rankOf fromSq) (fileOf toSq) (rankOf toSq) (sign df) (sign dr) 8
    | .rook =>
      (df == 0 || dr == 0) &&
        pathClear b (fileOf fromSq) (rankOf fromSq) (fileOf toSq) (rankOf toSq) (sign df) (sign dr) 8
    | .queen =>
      (df * df == dr * dr || df == 0 || dr == 0) &&
        pathClear b (fileOf fromSq) (rankOf fromSq) (fileOf toSq) (rankOf toSq) (sign df) (sign dr) 8

/-- Whether any piece of color c attacks square t. -/
def attackedBy (b : Board) (c : Color) (t : Nat) : Bool :=
  (List.range 64).any fun sq =>
    match pieceAt b sq with
    | some p => p.color == c && attacks b p sq t
    | none => false

/-- The square of the king of color c. -/
def kingSq (b : Board) (c : Color) : Option Nat :=
  (List.range 64).find? fun sq => pieceAt b sq == some ⟨c, PieceType.king⟩

/-- Whether the king of color c stands attacked. -/
def inCheck (b : Board) (c : Color) : Bool :=
  match kingSq b c with
  | some k => attackedBy b c.other k
  | none => false

/-- A move in the coordinate form of the rules collaborator. -/
structure Move where
  fromSq : Nat
  toSq : Nat
  promo : Option PieceType
  deriving DecidableEq

/-- Replaces the content of one square. -/
def setSq (b : Board) (sq : Nat) (v : Option Piece) : Board :=
  { b with squares := b.squares.set sq v }

/--
Applies a (pseudo-legal) move: relocates the piece, performs en-passant
and castling side effects, updates castling rights, the en-passant
square, the halfmove clock and the fullmove number, and flips the turn.
-/
def applyMove (b : Board) (m : Move) : Board :=
  match pieceAt b m.fromSq with
  | none => b
  | some p =>
    let captured := pieceAt b m.toSq
    let isEp := p.ptype == PieceType.pawn && captured.isNone && fileOf m.toSq != fileOf m.fromSq
    let moved : Piece :=
      match m.promo with
      | some pt => ⟨p.color, pt⟩
      | none => p
    let b1 := setSq (setSq b m.fromSq none) m.toSq (some moved)
    let b2 :=
      if isEp then
        setSq b1 (if p.color == Color.white then m.toSq - 8 else m.toSq + 8) none
      else b1
    let b3 :=
      if p.ptype == PieceType.king && fileOf m.toSq - fileOf m.fromSq == 2 then
        setSq (setSq b2 (m.fromSq + 3) none) (m.fromSq + 1) (some ⟨p.color, PieceType.rook⟩)
      else if p.ptype == PieceType.king && fileOf m.toSq - fileOf m.fromSq == -2 then
        setSq (setSq b2 (m.fromSq - 4) none) (m.fromSq - 1) (some ⟨p.color, PieceType.rook⟩)
      else b2
    { b3 with
      turn := p.color.other
      castleWK := b.castleWK && !(m.fromSq == 4 || m.fromSq == 7 || m.toSq == 7)
      castleWQ := b.castleWQ && !(m.fromSq == 4 || m.fromSq == 0 || m.toSq == 0)
      castleBK := b.castleBK && !(m.fromSq == 60 || m.fromSq == 63 || m.toSq == 63)
      castleBQ := b.castleBQ && !(m.fromSq == 60 || m.fromSq == 56 || m.toSq == 56)
      epSquare :=
        if p.ptype == PieceType.pawn && rankOf m.toSq - rankOf m.fromSq == 2 then
          some (m.fromSq + 8)
        else if p.ptype == PieceType.pawn && rankOf m.toSq - rankOf m.fromSq == -2 then
          some (m.fromSq - 8)
        else none
      halfmoveClock :=
        if p.ptype == PieceType.pawn || captured.isSome then 0 else b.halfmoveClock + 1
      fullmoveNumber :=
        if p.color == Color.black then b.fullmoveNumber + 1 else b.fullmoveNumber }

/-- The knight move deltas. -/
def knightDeltas : List (Int × Int) :=
  [(1, 2), (2, 1), (2, -1), (1, -2), (-1, -2), (-2, -1), (-2, 1), (-1, 2)]

/-- The king move deltas. -/
def kingDeltas : List (Int × Int) :=
  [(1, 0), (1, 1), (0, 1), (-1, 1), (-1, 0), (-1, -1), (0, -1), (1, -1)]

/-- The bishop ray directions. -/
def bishopDirs : List (Int × Int) :=
  [(1, 1), (1, -1), (-1, 1), (-1, -1)]

/-- The rook ray directions. -/
def rookDirs : List (Int × Int) :=
  [(1, 0), (-1, 0), (0, 1), (0, -1)]

/-- Target squares along one sliding ray from (f, r) for a piece of color c. -/
def slideDir (b : Board) (c : Color) (f r df dr : Int) : Nat → List Nat
  | 0 => []
  | fuel + 1 =>
    match sqOf (f + df) (r + dr) with
    | none => []
    | some sq =>
      match pieceAt b sq with
      | none => sq :: slideDir b c (f + df) (r + dr) df dr fuel
      | some p => if p.color == c then [] else [sq]

/-- Pseudo-legal pawn moves for a pawn of color c on square sq. -/
def pawnMoves (b : Board) (c : Color) (sq : Nat) : List Move :=
  let f := fileOf sq
  let r := rankOf sq
  let dir : Int := if c == Color.white then 1 else -1
  let startRank : Int := if c == Color.white then 1 else 6
  let promoRank : Int := if c == Color.white then 7 else 0
  let mkMoves : Nat → List Move := fun t =>
    if rankOf t == promoRank then
      [⟨sq, t, some PieceType.queen⟩, ⟨sq, t, some PieceType.rook⟩,
       ⟨sq, t, some PieceType.bishop⟩, ⟨sq, t, some PieceType.knight⟩]
    else [⟨sq, t, none⟩]
  let push1 : List Move :=
    match sqOf f (r + dir) with
    | some t => if (pieceAt b t).isNone then mkMoves t else []
    | none => []
  let push2 : List Move :=
    if r == startRank then
      match sqOf f (r + dir), sqOf f (r + 2 * dir) with
      | some t1, some t2 =>
        if (pieceAt b t1).isNone && (pieceAt b t2).isNone then [⟨sq, t2, none⟩] else []
      | _, _ => []
    else []
  let caps : List Move :=
    ([(-1 : Int), 1]).flatMap fun df =>
      match sqOf (f + df) (r + dir) with
      | some t =>
        match pieceAt b t with
        | some q => if q.color != c then mkMoves t else []
        | none => if b.epSquare == some t then [⟨sq, t, none⟩] else []
      | none => []
  push1 ++ push2 ++ caps

/-- Pseudo-legal moves of a leaper (knight or king) on square sq. -/
def leaperMoves (b : Board) (c : Color) (sq : Nat) (deltas : List (Int × Int)) : List Move :=
  deltas.filterMap fun d =>
    match sqOf (fileOf sq + d.1) (rankOf sq + d.2) with
    | some t =>
      match pieceAt b t with
      | some q => if q.color == c then none else some ⟨sq, t, none⟩
      | none => some ⟨sq, t, none⟩
    | none => none

/-- Pseudo-legal moves of a slider on square sq along the given directions. -/
def sliderMoves (b : Board) (c : Color) (sq : Nat) (dirs : List (Int × Int)) : List Move :=
  dirs.flatMap fun d =>
    (slideDir b c (fileOf sq) (rankOf sq) d.1 d.2 8).map fun t => ⟨sq, t, none⟩

/--
Castling moves for the king of color c on square sq, encoded as the
two-square king move.  The conditions that the king is neither in check
nor crosses an attacked square are part of generation; the destination
square is covered by the common legality filter.
-/
def castlingMoves (b : Board) (c : Color) (sq : Nat) : List Move :=
  let home : Nat := if c == Color.white then 4 else 60
  if sq != home then []
  else
    let rights : Bool × Bool :=
      if c == Color.white then (b.castleWK, b.castleWQ) else (b.castleBK, b.castleBQ)
    let enemy := c.other
    let ks : List Move :=
      if rights.1 && (pieceAt b (home + 1)).isNone && (pieceAt b (home + 2)).isNone &&
          (pieceAt b (home + 3) == some ⟨c, PieceType.rook⟩) &&
          !attackedBy b enemy home && !attackedBy b enemy (home + 1) then
        [⟨home, home + 2, none⟩]
      else []
    let qs : List Move :=
      if rights.2 && (pieceAt b (home - 1)).isNone && (pieceAt b (home - 2)).isNone &&
          (pieceAt b (home - 3)).isNone && (pieceAt b (home - 4) == some ⟨c, PieceType.rook⟩) &&
          !attackedBy b enemy home && !attackedBy b enemy (home - 1) then
        [⟨home, home - 2, none⟩]
      else []
    ks ++ qs

/-- All pseudo-legal moves of the piece standing on square sq. -/
def pieceMoves (b : Board) (sq : Nat) : List Move :=
  match pieceAt b sq with
  | none => []
  | some p =>
    if p.color != b.turn then []
    else
      match p.ptype with
      | .pawn => pawnMoves b p.color sq
      | .knight => leaperMoves b p.color sq knightDeltas
      | .king => leaperMoves b p.color sq kingDeltas ++ castlingMoves b p.color sq
      | .bishop => sliderMoves b p.color sq bishopDirs
      | .rook => sliderMoves b p.color sq rookDirs
      | .queen => sliderMoves b p.color sq (bishopDirs ++ rookDirs)

/-- All pseudo-legal moves of the side to move. -/
def pseudoMoves (b : Board) : List Move :=
  (List.range 64).flatMap fun sq => pieceMoves b sq

/-- A pseudo-legal move is legal when it does not leave the own king in check. -/
def isLegalMove (b : Board) (m : Move) : Bool :=
  !inCheck (applyMove b m) b.turn

/-- All legal moves of the side to move. -/
def legalMoves (b : Board) : List Move :=
  (pseudoMoves b).filter (isLegalMove b)

/-- Checkmate: the side to move is in check and has no legal move. -/
def isCheckmate (b : Board) : Bool :=
  inCheck b b.turn && (legalMoves b).isEmpty

/-- Stalemate: the side to move is not in check and has no legal move. -/
def isStalemate (b : Board) : Bool :=
  !inCheck b b.turn && (legalMoves b).isEmpty

/-- Number of pieces of color c and kind pt on the board. -/
def countPieces (b : Board) (c : Color) (pt : PieceType) : Nat :=
  b.squares.countP fun o => o == some ⟨c, pt⟩

/-- Whether all bishops on the board stand on squares of a single color. -/
def bishopsSameColor (b : Board) : Bool :=
  let bishopSquares :=
    (List.range 64).filter fun sq =>
      match pieceAt b sq with
      | some p => p.ptype == PieceType.bishop
      | none => false
  (bishopSquares.all fun sq => (sq % 8 + sq / 8) % 2 == 0) ||
    (bishopSquares.all fun sq => (sq % 8 + sq / 8) % 2 == 1)

/-- Whether side c alone has insufficient material to mate, as the collaborator decides it. -/
def sideInsufficient (b : Board) (c : Color) : Bool :=
  if countPieces b c .pawn + countPieces b c .rook + countPieces b c .queen > 0 then false
  else if countPieces b c .knight > 0 then
    countPieces b c .knight + countPieces b c .bishop ≤ 1 &&
      countPieces b c.other .pawn + countPieces b c.other .rook + countPieces b c.other .queen +
        countPieces b c.other .knight + countPieces b c.other .bishop == 0
  else if countPieces b c .bishop > 0 then
    bishopsSameColor b && countPieces b .white .pawn + countPieces b .black .pawn == 0 &&
      countPieces b c.other .knight == 0
  else true

/-- Draw by insufficient material: both sides insufficient. -/
def insufficientMaterial (b : Board) : Bool :=
  sideInsufficient b .white && sideInsufficient b .black

/--
Terminal-state test of the rules collaborator (is_game_over): checkmate,
stalemate, insufficient material, or the seventy-five-move rule.  (The
fivefold-repetition component needs the move history; no position in
this demo is ever repeated, so it is omitted from the model.)
-/
def isGameOver (b : Board) : Bool :=
  isCheckmate b || isStalemate b || insufficientMaterial b || decide (150 ≤ b.halfmoveClock)

/-- File index denoted by a SAN file letter. -/
def charFile (c : Char) : Option Nat :=
  if 'a' ≤ c ∧ c ≤ 'h' then some (c.toNat - 'a'.toNat) else none

/-- Rank index denoted by a SAN rank digit. -/
def charRank (c : Char) : Option Nat :=
  if '1' ≤ c ∧ c ≤ '8' then some (c.toNat - '1'.toNat) else none

/-- Piece kind denoted by an upper-case SAN piece letter. -/
def charPiece (c : Char) : Option PieceType :=
  if c == 'N' then some .knight
  else if c == 'B' then some .bishop
  else if c == 'R' then some .rook
  else if c == 'Q' then some .queen
  else if c == 'K' then some .king
  else none

/-- Piece kind denoted by a SAN promotion letter (either case). -/
def promoPiece (c : Char) : Option PieceType :=
  if c == 'n' || c == 'N' then some .knight
  else if c == 'b' || c == 'B' then some .bishop
  else if c == 'r' || c == 'R' then some .rook
  else if c == 'q' || c == 'Q' then some .queen
  else if c == 'k' || c == 'K' then some .king
  else none

/--
The content of a parsed non-castling SAN token: a piece-kind filter
(none means any piece, for fully specified origin squares), optional
origin file and rank, the target square and an optional promotion.
-/
structure SanMove where
  pieceFilter : Option PieceType
  fromFile : Option Nat
  fromRank : Option Nat
  toSq : Nat
  promo : Option PieceType
  deriving DecidableEq

/-- A parsed SAN token. -/
inductive San where
  | castleKingside
  | castleQueenside
  | normal (sm : SanMove)
  deriving DecidableEq

/-- Drops one trailing check or mate sign. -/
def dropCheck (cs : List Char) : List Char :=
  match cs.getLast? with
  | some '+' => cs.dropLast
  | some '#' => cs.dropLast
  | _ => cs

/-- Splits one trailing promotion suffix (an optional = and a piece letter) off. -/
def takePromo (cs : List Char) : Option PieceType × List Char :=
  match cs.getLast? with
  | some c =>
    match promoPiece c with
    | some pt =>
      let rest := cs.dropLast
      match rest.getLast? with
      | some '=' => (some pt, rest.dropLast)
      | _ => (some pt, rest)
    | none => (none, cs)
  | none => (none, cs)

/-- Whether a character is the capture or separator sign allowed before the target. -/
def isCapSep (c : Char) : Bool :=
  c == 'x' || c == '-'

/-- The square denoted by a SAN file letter and rank digit. -/
def mkSq (fc rc : Char) : Option Nat :=
  match charFile fc, charRank rc with
  | some f, some r => some (r * 8 + f)
  | _, _ => none

/--
Parses the body of a SAN token after the piece letter: an optional
origin file, an optional origin rank, an optional capture sign, and the
target square, exactly the shape the collaborator accepts.
-/
def parseTarget : List Char → Option (Option Nat × Option Nat × Nat)
  | [fc, rc] => (mkSq fc rc).map fun t => (none, none, t)
  | [a, fc, rc] =>
    (mkSq fc rc).bind fun t =>
      if isCapSep a then some (none, none, t)
      else
        match charFile a, charRank a with
        | some ff, _ => some (some ff, none, t)
        | none, some fr => some (none, some fr, t)
        | none, none => none
  | [a, b, fc, rc] =>
    (mkSq fc rc).bind fun t =>
      match charFile a, charRank a with
      | some ff, _ =>
        if isCapSep b then some (some ff, none, t)
        else (charRank b).map fun fr => (some ff, some fr, t)
      | none, some fr => if isCapSep b then some (none, some fr, t) else none
      | none, none => none
  | [a, b, c, fc, rc] =>
    (mkSq fc rc).bind fun t =>
      match charFile a, charRank b with
      | some ff, some fr => if isCapSep c then some (some ff, some fr, t) else none
      | _, _ => none
  | _ => none

/--
Parses a SAN token the way the rules collaborator does: the castling
words first, then one optional check sign, one optional promotion
suffix, an optional leading piece letter and the move body.  When no
piece letter is given the token denotes a pawn move, except that a fully
specified origin square matches any piece.
-/
def parseSan (s : String) : Option San :=
  if s == "O-O" || s == "O-O+" || s == "O-O#" || s == "0-0" || s == "0-0+" || s == "0-0#" then
    some San.castleKingside
  else if s == "O-O-O" || s == "O-O-O+" || s == "O-O-O#" ||
      s == "0-0-0" || s == "0-0-0+" || s == "0-0-0#" then
    some San.castleQueenside
  else
    let cs := dropCheck s.data
    let pr := takePromo cs
    let body := pr.2
    match body with
    | c :: rest =>
      match charPiece c with
      | some pt =>
        (parseTarget rest).map fun w => San.normal ⟨some pt, w.1, w.2.1, w.2.2, pr.1⟩
      | none =>
        (parseTarget body).map fun w =>
          let anyPiece := w.1.isSome && w.2.1.isSome
          San.normal ⟨if anyPiece then none else some PieceType.pawn, w.1, w.2.1, w.2.2, pr.1⟩
    | [] => none

/-- Whether a two-square king move (a castling move) starts from square sq. -/
def isCastleMove (b : Board) (m : Move) : Bool :=
  match pieceAt b m.fromSq with
  | some p =>
    p.ptype == PieceType.king &&
      (fileOf m.toSq - fileOf m.fromSq == 2 || fileOf m.toSq - fileOf m.fromSq == -2)
  | none => false

/-- Whether a candidate move fits a parsed SAN body, before the legality filter. -/
def sanFilterMatches (b : Board) (sm : SanMove) (m : Move) : Bool :=
  match pieceAt b m.fromSq with
  | none => false
  | some p =>
    (match sm.pieceFilter with
     | some pt => p.ptype == pt
     | none => true) &&
    (match sm.fromFile with
     | some ff => fileOf m.fromSq == Int.ofNat ff
     | none => true) &&
    (match sm.fromRank with
     | some fr => rankOf m.fromSq == Int.ofNat fr
     | none => true) &&
    m.toSq == sm.toSq &&
    m.promo == sm.promo &&
    (match pieceAt b m.toSq with
     | some q => q.color != b.turn
     | none => true)

/--
Finds the unique legal move denoted by a parsed SAN token, as the
collaborator does: none when no legal move matches (an illegal move) and
none when several match (an ambiguous move); both raise there.
-/
def matchSan (b : Board) (s : San) : Option Move :=
  match s with
  | .castleKingside =>
    match (legalMoves b).filter (fun m => isCastleMove b m && fileOf m.toSq == 6) with
    | [m] => some m
    | _ => none
  | .castleQueenside =>
    match (legalMoves b).filter (fun m => isCastleMove b m && fileOf m.toSq == 2) with
    | [m] => some m
    | _ => none
  | .normal sm =>
    let cands := (pseudoMoves b).filter fun m => sanFilterMatches b sm m
    match cands.filter (isLegalMove b) with
    | [m] => some m
    | _ => none

/--
Model of the collaborator interface push_san: parses the SAN string,
finds the unique matching legal move and applies it; none models the
exception raised on unparsable, illegal or ambiguous input, in which
case the board is untouched.
-/
def pushSan (b : Board) (s : String) : Option Board :=
  match parseSan s with
  | none => none
  | some san => (matchSan b san).map (applyMove b)

/-- Pushes a list of SAN half-moves in order from a given board. -/
def pushSans (b : Board) (l : List String) : Option Board :=
  l.foldl (fun ob s => ob.bind fun bd => pushSan bd s) (some b)

/-- The back rank of color c in board order. -/
def backRank (c : Color) : List (Option Piece) :=
  [some ⟨c, .rook⟩, some ⟨c, .knight⟩, some ⟨c, .bishop⟩, some ⟨c, .queen⟩,
   some ⟨c, .king⟩, some ⟨c, .bishop⟩, some ⟨c, .knight⟩, some ⟨c, .rook⟩]

/-- A rank of eight pawns of color c. -/
def pawnRank (c : Color) : List (Option Piece) :=
  List.replicate 8 (some ⟨c, PieceType.pawn⟩)

/-- Eight empty squares. -/
def emptyRank : List (Option Piece) :=
  List.replicate 8 none

/-- The standard initial position, as chess.Board() constructs it. -/
def startBoard : Board :=
  { squares :=
      backRank .white ++ pawnRank .white ++ emptyRank ++ emptyRank ++
        emptyRank ++ emptyRank ++ pawnRank .black ++ backRank .black
    turn := .white
    castleWK := true
    castleWQ := true
    castleBK := true
    castleBQ := true
    epSquare := none
    halfmoveClock := 0
    fullmoveNumber := 1 }

/-!
From here on everything is translated from src/main.py: the hardcoded
script, the per-session state initialised by the st.session_state
guards, the advance handler process_next_move_pair, and the
move-history append logic of the page body.
-/

/--
The hardcoded full game script (lines 26 to 47 of src/main.py): a list
of (white move, black move) pairs, the final entry being a single-move
pair holding only the White move, modelled as a pair with none.
-/
def hardcoded_moves : List (String × Option String) :=
  [("e4", some "e5"),
   ("f4", some "exf4"),
   ("Bc4", some "Qh4+"),
   ("Kf1", some "b5"),
   ("Bxb5", some "Nf6"),
   ("Nf3", some "Qh6"),
   ("d3", some "Nh5"),
   ("Nh4", some "Qg5"),
   ("Nf5", some "c6"),
   ("g4", some "Nf6"),
   ("Rg1", some "cxb5"),
   ("h4", some "Qg6"),
   ("h5", some "Qg5"),
   ("Qf3", some "Ng8"),
   ("Bxf4", some "Qf6"),
   ("Nc3", some "Bc5"),
   ("Nd5", some "Qxb2"),
   ("Bd6", some "Bxd6"),
   ("Nxd6+", some "Kd8"),
   ("Bc7#", none)]

/-- The hardcoded per-pair log messages (lines 55 to 136 of src/main.py). -/
def move_log_pairs : List (String × String) :=
  [("Deepseek R1 (White) played e4 to control the center",
    "Legacy Stockfish (Black) played e5 to contest central control"),
   ("Deepseek R1 advanced f4 to open lines",
    "Legacy Stockfish captured with exf4 to challenge White\x27s structure"),
   ("Deepseek R1 developed bishop to c4 targeting f7",
    "Legacy Stockfish checked with Qh4+ to disturb king safety"),
   ("Deepseek R1 moved king to f1 to escape check",
    "Legacy Stockfish pushed b5 to attack the bishop"),
   ("Deepseek R1 captured on b5 with the bishop",
    "Legacy Stockfish developed knight to f6 to control key squares"),
   ("Deepseek R1 developed knight to f3 for kingside activity",
    "Legacy Stockfish repositioned queen to h6 to support counterplay"),
   ("Deepseek R1 played d3 to solidify the center",
    "Legacy Stockfish moved knight to h5 for an aggressive posture"),
   ("Deepseek R1 repositioned knight to h4 to increase pressure",
    "Legacy Stockfish moved queen to g5 to keep up the pressure"),
   ("Deepseek R1 advanced knight to f5 to intensify the attack",
    "Legacy Stockfish played c6 to challenge White\x27s advanced knight"),
   ("Deepseek R1 pushed g4 to support the attack",
    "Legacy Stockfish reactivated knight to f6 for defense"),
   ("Deepseek R1 activated the rook along the g-file",
    "Legacy Stockfish captured on b5 with cxb5 to open lines"),
   ("Deepseek R1 advanced h4 to restrict enemy moves",
    "Legacy Stockfish shifted queen to g6 to seek counterplay"),
   ("Deepseek R1 pushed h5 to further disturb Black\x27s position",
    "Legacy Stockfish moved queen to g5, maintaining pressure"),
   ("Deepseek R1 centralized the queen on f3 for coordination",
    "Legacy Stockfish retreated knight to g8 for regrouping"),
   ("Deepseek R1 captured with bishop on f4 to remove a pawn",
    "Legacy Stockfish centralized queen to f6 to contest the board"),
   ("Deepseek R1 developed knight to c3 to bolster central control",
    "Legacy Stockfish developed bishop to c5 to target weaknesses"),
   ("Deepseek R1 moved knight to d5 to create threats",
    "Legacy Stockfish captured on b2 with the queen to gain material"),
   ("Deepseek R1 advanced bishop to d6 to increase pressure",
    "Legacy Stockfish exchanged bishop on d6 to ease the tension"),
   ("Deepseek R1 captured on d6 with knight delivering check",
    "Legacy Stockfish moved king to d8 to escape the check"),
   ("Deepseek R1 delivered checkmate with Bc7#, ending the game",
    "")]

/--
The per-session state of the page: the fields kept in st.session_state
by src/main.py (chess_board, hardcoded_moves, current_move_index,
move_log_pairs, current_white_log, current_black_log, error_message,
move_history).
-/
structure Session where
  chess_board : Board
  hardcoded_moves : List (String × Option String)
  current_move_index : Nat
  move_log_pairs : List (String × String)
  current_white_log : String
  current_black_log : String
  error_message : String
  move_history : List String
  deriving DecidableEq

/--
The session state after the first page load: the st.session_state
initialisation guards of src/main.py give a fresh board, the hardcoded
script and logs, index zero, empty current logs, an empty error message
and an empty move history.
-/
def initSession : Session :=
  { chess_board := startBoard
    hardcoded_moves := hardcoded_moves
    current_move_index := 0
    move_log_pairs := move_log_pairs
    current_white_log := ""
    current_black_log := ""
    error_message := ""
    move_history := [] }

/-- The message set on the exhausted-script path (line 172 of src/main.py). -/
def gameOverMessage : String :=
  "Game is already over!"

/--
The text of the exception the rules collaborator raises for an illegal
or unparsable SAN string.  The collaborator also embeds the position in
its message; only the shape matters here, none of the claims depends on
the exact wording of an exception.
-/
def san_error_text (san : String) : String :=
  "illegal san: " ++ san

/-- The text of the exception a Python list raises on an out-of-range index. -/
def index_error_text : String :=
  "list index out of range"

/--
The except handler of process_next_move_pair (lines 202 to 205 of
src/main.py): formats the exception into the error message and clears
both current-move logs; every mutation already performed inside the try
block stays.
-/
def exceptState (s : Session) (msg : String) : Session :=
  { s with
    error_message := "Error: " ++ msg
    current_white_log := ""
    current_black_log := "" }

/--
The advance handler process_next_move_pair (lines 164 to 205 of
src/main.py).  The sleeps and the placeholder redraws are presentation
only and have no state effect; exceptions raised inside the try block
are modelled by routing to exceptState at the raise point, keeping all
mutations made before it, exactly as the Python handler does.
-/
def process_next_move_pair (s : Session) : Session :=
  if s.hardcoded_moves.length ≤ s.current_move_index then
    { s with error_message := gameOverMessage }
  else
    match s.hardcoded_moves.get? s.current_move_index with
    | none => exceptState s index_error_text
    | some move_pair =>
      match s.move_log_pairs.get? s.current_move_index with
      | none => exceptState s index_error_text
      | some log_pair =>
        match pushSan s.chess_board move_pair.1 with
        | none => exceptState s (san_error_text move_pair.1)
        | some afterWhite =>
          let s1 :=
            { s with
              chess_board := afterWhite
              current_white_log := log_pair.1
              current_black_log := "" }
          match move_pair.2 with
          | none =>
            { s1 with
              current_move_index := s.current_move_index + 1
              error_message := "" }
          | some black_move =>
            match pushSan afterWhite black_move with
            | none => exceptState s1 (san_error_text black_move)
            | some afterBlack =>
              { s1 with
                chess_board := afterBlack
                current_black_log := log_pair.2
                current_move_index := s.current_move_index + 1
                error_message := "" }

/--
The move-history section of the page body (lines 255 to 258 of
src/main.py): on every rerun, each nonempty current-move log is appended
to the chronological transcript unless an equal string is already there.
-/
def append_move_history (s : Session) : Session :=
  let s1 :=
    if s.current_white_log ≠ "" ∧ s.current_white_log ∉ s.move_history then
      { s with move_history := s.move_history ++ [s.current_white_log] }
    else s
  if s1.current_black_log ≠ "" ∧ s1.current_black_log ∉ s1.move_history then
    { s1 with move_history := s1.move_history ++ [s1.current_black_log] }
  else s1

/--
The session after n advance-button clicks starting from a fresh page:
n applications of process_next_move_pair to initSession.
-/
def sessionAfter : Nat → Session
  | 0 => initSession
  | n + 1 => process_next_move_pair (sessionAfter n)

/-- The SAN half-moves of one script pair, White before Black. -/
def pairSans (p : String × Option String) : List String :=
  match p.2 with
  | some bm => [p.1, bm]
  | none => [p.1]

/-- The SAN half-moves of the first n script pairs, in order. -/
def scriptSans (n : Nat) : List String :=
  (hardcoded_moves.take n).flatMap pairSans

/--
The white half-move push the next advance call would attempt on a
session: the scheduled pair is looked up at the cursor and its White
SAN move is pushed against the current board.
-/
def scheduled_white_push (s : Session) : Option (Option Board) :=
  (s.hardcoded_moves.get? s.current_move_index).map fun p => pushSan s.chess_board p.1

/-!
Helper lemmas: one characterization lemma per control path of
process_next_move_pair, a shape lemma combining them, and small string
facts about the error messages.
-/

/-- An error message produced by the except handler is never empty. -/
lemma exceptState_error_ne (s : Session) (msg : String) :
    (exceptState s msg).error_message ≠ "" := by
  simp only [exceptState]
  intro h
  have h2 := congrArg String.length h
  simp [String.length_append] at h2
  exact absurd h2.1 (by decide)

/-- The exhausted-script message is not empty. -/
lemma gameOverMessage_ne : gameOverMessage ≠ "" := by
  decide

/-- The exhaustion guard path: the error message is set, nothing else changes. -/
lemma step_exhausted (s : Session) (h : s.hardcoded_moves.length ≤ s.current_move_index) :
    process_next_move_pair s = { s with error_message := gameOverMessage } := by
  unfold process_next_move_pair
  rw [if_pos h]

/-- The path where the log-pair lookup is out of range. -/
lemma step_log_fail (s : Session) (p : String × Option String)
    (hidx : s.current_move_index < s.hardcoded_moves.length)
    (hp : s.hardcoded_moves.get? s.current_move_index = some p)
    (hl : s.move_log_pairs.get? s.current_move_index = none) :
    process_next_move_pair s = exceptState s index_error_text := by
  unfold process_next_move_pair
  rw [if_neg (by omega)]
  simp only [hp, hl]

/-- The path where the White half-move is rejected by the rules collaborator. -/
lemma step_white_fail (s : Session) (p : String × Option String) (lp : String × String)
    (hidx : s.current_move_index < s.hardcoded_moves.length)
    (hp : s.hardcoded_moves.get? s.current_move_index = some p)
    (hl : s.move_log_pairs.get? s.current_move_index = some lp)
    (hw : pushSan s.chess_board p.1 = none) :
    process_next_move_pair s = exceptState s (san_error_text p.1) := by
  unfold process_next_move_pair
  rw [if_neg (by omega)]
  simp only [hp, hl, hw]

/-- The success path of a single-move pair: only the White half-move is applied. -/
lemma step_single_success (s : Session) (w : String) (lp : String × String) (b1 : Board)
    (hidx : s.current_move_index < s.hardcoded_moves.length)
    (hp : s.hardcoded_moves.get? s.current_move_index = some (w, none))
    (hl : s.move_log_pairs.get? s.current_move_index = some lp)
    (hw : pushSan s.chess_board w = some b1) :
    process_next_move_pair s =
      { s with
        chess_board := b1
        current_white_log := lp.1
        current_black_log := ""
        current_move_index := s.current_move_index + 1
        error_message := "" } := by
  unfold process_next_move_pair
  rw [if_neg (by omega)]
  simp only [hp, hl, hw]

/--
The path where the White half-move is applied and the Black half-move is
then rejected: the board keeps the White half-move, the cursor does not
move, the handler clears both current-move logs.
-/
lemma step_black_fail (s : Session) (w bm : String) (lp : String × String) (b1 : Board)
    (hidx : s.current_move_index < s.hardcoded_moves.length)
    (hp : s.hardcoded_moves.get? s.current_move_index = some (w, some bm))
    (hl : s.move_log_pairs.get? s.current_move_index = some lp)
    (hw : pushSan s.chess_board w = some b1)
    (hb : pushSan b1 bm = none) :
    process_next_move_pair s =
      { s with
        chess_board := b1
        current_white_log := ""
        current_black_log := ""
        error_message := "Error: " ++ san_error_text bm } := by
  unfold process_next_move_pair
  rw [if_neg (by omega)]
  simp only [hp, hl, hw, hb, exceptState]

/-- The success path of a two-move pair: both half-moves are applied. -/
lemma step_pair_success (s : Session) (w bm : String) (lp : String × String) (b1 b2 : Board)
    (hidx : s.current_move_index < s.hardcoded_moves.length)
    (hp : s.hardcoded_moves.get? s.current_move_index = some (w, some bm))
    (hl : s.move_log_pairs.get? s.current_move_index = some lp)
    (hw : pushSan s.chess_board w = some b1)
    (hb : pushSan b1 bm = some b2) :
    process_next_move_pair s =
      { s with
        chess_board := b2
        current_white_log := lp.1
        current_black_log := lp.2
        current_move_index := s.current_move_index + 1
        error_message := "" } := by
  unfold process_next_move_pair
  rw [if_neg (by omega)]
  simp only [hp, hl, hw, hb]

/--
Exhaustive characterization of process_next_move_pair: every call takes
exactly one of the five control paths (exhausted script, failure before
any half-move, single-move-pair success, failure after the White
half-move, or full success).
-/
lemma step_shape (s : Session) :
    (s.hardcoded_moves.length ≤ s.current_move_index ∧
      process_next_move_pair s = { s with error_message := gameOverMessage }) ∨
    (s.current_move_index < s.hardcoded_moves.length ∧
      ∃ msg, process_next_move_pair s = exceptState s msg) ∨
    (∃ w lp b1, s.current_move_index < s.hardcoded_moves.length ∧
      s.hardcoded_moves.get? s.current_move_index = some (w, none) ∧
      s.move_log_pairs.get? s.current_move_index = some lp ∧
      pushSan s.chess_board w = some b1 ∧
      process_next_move_pair s =
        { s with
          chess_board := b1
          current_white_log := lp.1
          current_black_log := ""
          current_move_index := s.current_move_index + 1
          error_message := "" }) ∨
    (∃ w bm lp b1, s.current_move_index < s.hardcoded_moves.length ∧
      s.hardcoded_moves.get? s.current_move_index = some (w, some bm) ∧
      s.move_log_pairs.get? s.current_move_index = some lp ∧
      pushSan s.chess_board w = some b1 ∧
      pushSan b1 bm = none ∧
      process_next_move_pair s =
        { s with
          chess_board := b1
          current_white_log := ""
          current_black_log := ""
          error_message := "Error: " ++ san_error_text bm }) ∨
    (∃ w bm lp b1 b2, s.current_move_index < s.hardcoded_moves.length ∧
      s.hardcoded_moves.get? s.current_move_index = some (w, some bm) ∧
      s.move_log_pairs.get? s.current_move_index = some lp ∧
      pushSan s.chess_board w = some b1 ∧
      pushSan b1 bm = some b2 ∧
      process_next_move_pair s =
        { s with
          chess_board := b2
          current_white_log := lp.1
          current_black_log := lp.2
          current_move_index := s.current_move_index + 1
          error_message := "" }) := by
  by_cases hex : s.hardcoded_moves.length ≤ s.current_move_index
  · exact Or.inl ⟨hex, step_exhausted s hex⟩
  · have hidx : s.current_move_index < s.hardcoded_moves.length := by omega
    obtain ⟨p, hp⟩ : ∃ p, s.hardcoded_moves.get? s.current_move_index = some p := by
      rw [List.get?_eq_get hidx]
      exact ⟨_, rfl⟩
    cases hl : s.move_log_pairs.get? s.current_move_index with
    | none =>
      exact Or.inr (Or.inl ⟨hidx, index_error_text, step_log_fail s p hidx hp hl⟩)
    | some lp =>
      cases hw : pushSan s.chess_board p.1 with
      | none =>
        exact Or.inr (Or.inl ⟨hidx, san_error_text p.1, step_white_fail s p lp hidx hp hl hw⟩)
      | some b1 =>
        obtain ⟨w, ob⟩ := p
        cases ob with
        | none =>
          exact Or.inr (Or.inr (Or.inl
            ⟨w, lp, b1, hidx, hp, rfl, hw, step_single_success s w lp b1 hidx hp hl hw⟩))
        | some bm =>
          cases hb : pushSan b1 bm with
          | none =>
            exact Or.inr (Or.inr (Or.inr (Or.inl
              ⟨w, bm, lp, b1, hidx, hp, rfl, hw, hb, step_black_fail s w bm lp b1 hidx hp hl hw hb⟩)))
          | some b2 =>
            exact Or.inr (Or.inr (Or.inr (Or.inr
              ⟨w, bm, lp, b1, b2, hidx, hp, rfl, hw, hb,
                step_pair_success s w bm lp b1 b2 hidx hp hl hw hb⟩)))

/-- The advance handler never touches the script, the logs table or the history. -/
lemma step_const_fields (s : Session) :
    (process_next_move_pair s).hardcoded_moves = s.hardcoded_moves ∧
    (process_next_move_pair s).move_log_pairs = s.move_log_pairs ∧
    (process_next_move_pair s).move_history = s.move_history := by
  rcases step_shape s with ⟨_, h⟩ | ⟨_, _, h⟩ | ⟨_, _, _, _, _, _, _, h⟩ |
    ⟨_, _, _, _, _, _, _, _, _, h⟩ | ⟨_, _, _, _, _, _, _, _, _, _, h⟩ <;>
    simp [h, exceptState]

/--
The advance handler reads every session field except the previous error
message, and writes the error message on every path, so its result does
not depend on the error message it starts from.
-/
lemma step_error_irrelevant (s : Session) (e : String) :
    process_next_move_pair { s with error_message := e } = process_next_move_pair s := by
  obtain ⟨bd, mv, idx, lg, wl, bl, er, mh⟩ := s
  show process_next_move_pair ⟨bd, mv, idx, lg, wl, bl, e, mh⟩ =
    process_next_move_pair ⟨bd, mv, idx, lg, wl, bl, er, mh⟩
  unfold process_next_move_pair exceptState
  dsimp only

/-- A message carrying the Error prefix of the except handler is never empty. -/
lemma error_wrap_ne (m : String) : ("Error: " ++ m) ≠ "" := by
  intro h
  have h2 := congrArg String.length h
  simp [String.length_append] at h2
  exact absurd h2.1 (by decide)

/-- Unfolding one advance call. -/
lemma sessionAfter_succ (n : Nat) :
    sessionAfter (n + 1) = process_next_move_pair (sessionAfter n) :=
  rfl

/-- The half-move list of the first n+1 pairs extends that of the first n pairs. -/
lemma scriptSans_succ (n : Nat) (p : String × Option String)
    (hp : hardcoded_moves.get? n = some p) :
    scriptSans (n + 1) = scriptSans n ++ pairSans p := by
  unfold scriptSans
  rw [List.get?_eq_getElem?] at hp
  rw [List.take_succ, hp]
  simp

/-- Appending one SAN half-move to a successful push sequence. -/
lemma pushSans_snoc (b bd : Board) (l : List String) (w : String)
    (h : pushSans b l = some bd) :
    pushSans b (l ++ [w]) = pushSan bd w := by
  unfold pushSans at *
  rw [List.foldl_append, h]
  rfl

/-- Appending two SAN half-moves to a successful push sequence. -/
lemma pushSans_snoc2 (b bd : Board) (l : List String) (w bm : String)
    (h : pushSans b l = some bd) :
    pushSans b (l ++ [w, bm]) = (pushSan bd w).bind fun b1 => pushSan b1 bm := by
  unfold pushSans at *
  rw [List.foldl_append, h]
  rfl

/--
Invariant of successful runs: as long as every advance call so far
succeeded, the script and log tables are untouched, the cursor counts
the advances, and the board is exactly the fold of the script
half-moves pushed in order from the initial position.
-/
lemma sessionAfter_invariant (N : Nat)
    (h : ∀ k, k < N → (sessionAfter (k + 1)).error_message = "") :
    (sessionAfter N).hardcoded_moves = hardcoded_moves ∧
    (sessionAfter N).current_move_index = N ∧
    pushSans startBoard (scriptSans N) = some (sessionAfter N).chess_board := by
  induction N with
  | zero => exact ⟨rfl, rfl, rfl⟩
  | succ n ih =>
    obtain ⟨hmv, hidx, hboard⟩ := ih fun k hk => h k (by omega)
    have hsucc : (process_next_move_pair (sessionAfter n)).error_message = "" := by
      rw [← sessionAfter_succ]
      exact h n (by omega)
    rcases step_shape (sessionAfter n) with ⟨_, hstep⟩ | ⟨_, msg, hstep⟩ |
      ⟨w, lp, b1, hidx2, hp, hl, hw, hstep⟩ |
      ⟨w, bm, lp, b1, hidx2, hp, hl, hw, hb, hstep⟩ |
      ⟨w, bm, lp, b1, b2, hidx2, hp, hl, hw, hb, hstep⟩
    · rw [hstep] at hsucc
      exact absurd hsucc gameOverMessage_ne
    · rw [hstep] at hsucc
      exact absurd hsucc (exceptState_error_ne _ _)
    · rw [hmv, hidx] at hp
      refine ⟨?_, ?_, ?_⟩
      · rw [sessionAfter_succ, hstep]
        exact hmv
      · rw [sessionAfter_succ, hstep]
        show (sessionAfter n).current_move_index + 1 = n + 1
        rw [hidx]
      · rw [sessionAfter_succ, hstep]
        rw [scriptSans_succ n _ hp]
        show pushSans startBoard (scriptSans n ++ [w]) = some b1
        rw [pushSans_snoc startBoard _ (scriptSans n) w hboard]
        exact hw
    · rw [hstep] at hsucc
      exact absurd hsucc (error_wrap_ne _)
    · rw [hmv, hidx] at hp
      refine ⟨?_, ?_, ?_⟩
      · rw [sessionAfter_succ, hstep]
        exact hmv
      · rw [sessionAfter_succ, hstep]
        show (sessionAfter n).current_move_index + 1 = n + 1
        rw [hidx]
      · rw [sessionAfter_succ, hstep]
        rw [scriptSans_succ n _ hp]
        show pushSans startBoard (scriptSans n ++ [w, bm]) = some b2
        rw [pushSans_snoc2 startBoard _ (scriptSans n) w bm hboard]
        rw [hw]
        exact hb

/--
Claim C1: for every sequence of N advance calls that all succeed, the
session board after those N calls is the board obtained by starting
from the standard initial position and pushing the SAN half-moves of
the first N script pairs in order (White before Black within each
pair), with no half-move skipped, duplicated or reordered.
-/
theorem C1_successful_advances_refine_script (N : Nat)
    (h : ∀ k, k < N → (sessionAfter (k + 1)).error_message = "") :
    pushSans startBoard (scriptSans N) = some (sessionAfter N).chess_board :=
  (sessionAfter_invariant N h).2.2

/-- Witness for claim C1, at the concrete run of the first two advances. -/
theorem C1_witness :
    (∀ k, k < 2 → (sessionAfter (k + 1)).error_message = "") ∧
    pushSans startBoard (scriptSans 2) = some (sessionAfter 2).chess_board :=
  ⟨by decide, C1_successful_advances_refine_script 2 (by decide)⟩


/--
Evaluation of the concrete scripted run: the first 19 advance calls
succeed; the cursor then stands at 19 of 20, so the exhaustion guard is
not reached; the 20th advance call fails with the illegal-move error
(the scripted half-move Bc7# is impossible: both White bishops were
captured by the script itself at pairs 11 and 18), leaves the board and
the cursor unchanged and clears the White current-move log; and no
reachable position of the run is ever game over.
-/
lemma run_facts :
    (∀ k, k < 19 → (sessionAfter (k + 1)).error_message = "") ∧
    (sessionAfter 19).current_move_index = 19 ∧
    (sessionAfter 19).hardcoded_moves.length = 20 ∧
    (sessionAfter 20).error_message = "Error: illegal san: Bc7#" ∧
    (sessionAfter 20).current_move_index = 19 ∧
    (sessionAfter 20).chess_board = (sessionAfter 19).chess_board ∧
    (sessionAfter 19).current_white_log =
      "Deepseek R1 captured on d6 with knight delivering check" ∧
    (sessionAfter 20).current_white_log = "" ∧
    (∀ k, k < 21 → isGameOver (sessionAfter k).chess_board = false) ∧
    pushSan (sessionAfter 19).chess_board "Bc7#" = none := by
  decide

/--
Counterexample to claim C2 as stated: in the concrete run the first 19
advance calls all succeed, yet the cursor is then not exhausted (it
stands at 19 while the script holds 20 pairs), and the 20th advance
call fails with an error different from the exhausted-script message.
-/
theorem C2_counterexample :
    (∀ k, k < 19 → (sessionAfter (k + 1)).error_message = "") ∧
    (sessionAfter 19).current_move_index < (sessionAfter 19).hardcoded_moves.length ∧
    (sessionAfter 20).error_message ≠ gameOverMessage := by
  obtain ⟨ha, hb, hc, hd, _⟩ := run_facts
  refine ⟨ha, ?_, ?_⟩
  · rw [hb, hc]
    omega
  · rw [hd]
    decide

/--
Claim C2 as amended: with the fixed 20-pair script, the first 19
advance calls succeed and leave the cursor at 19, one short of the
20-entry script, so it is not exhausted; the 20th advance call fails,
but with the illegal-move error for the final scripted half-move Bc7#
rather than the exhausted-script condition, and the cursor stays at 19.
-/
theorem C2_amended_theorem :
    (∀ k, k < 19 → (sessionAfter (k + 1)).error_message = "") ∧
    (sessionAfter 19).current_move_index = 19 ∧
    (sessionAfter 19).hardcoded_moves.length = 20 ∧
    (sessionAfter 20).error_message = "Error: " ++ san_error_text "Bc7#" ∧
    (sessionAfter 20).error_message ≠ gameOverMessage ∧
    (sessionAfter 20).current_move_index = 19 := by
  obtain ⟨ha, hb, hc, hd, he, _⟩ := run_facts
  refine ⟨ha, hb, hc, ?_, ?_, he⟩
  · rw [hd]
    decide
  · rw [hd]
    decide

/--
Claim C4 evaluated on the code: the script never delivers its announced
checkmate.  The first 19 advance calls succeed, but the final scripted
half-move Bc7# is rejected by the rules collaborator (White has no
bishop left in the reached position), the 20th advance leaves the board
unchanged, and is_game_over is false at every state of the run, so it
never becomes true.
-/
theorem C4_final_move_never_applies :
    (∀ k, k < 19 → (sessionAfter (k + 1)).error_message = "") ∧
    pushSan (sessionAfter 19).chess_board "Bc7#" = none ∧
    (sessionAfter 20).chess_board = (sessionAfter 19).chess_board ∧
    (∀ k, k < 21 → isGameOver (sessionAfter k).chess_board = false) := by
  obtain ⟨ha, _, _, _, _, hf, _, _, hi, hj⟩ := run_facts
  exact ⟨ha, hj, hf, hi⟩

/--
Counterexample to claim C6 as stated: the 20th advance call of the
concrete run attempts the illegal scripted half-move Bc7#; the advance
fails and leaves the board exactly as before, but the White current-move
log does not stay as it was: the except handler clears it from the
19th-pair message to the empty string, a state change beside the error
message.
-/
theorem C6_counterexample :
    pushSan (sessionAfter 19).chess_board "Bc7#" = none ∧
    (sessionAfter 19).current_white_log =
      "Deepseek R1 captured on d6 with knight delivering check" ∧
    (sessionAfter 20).error_message ≠ "" ∧
    (sessionAfter 20).chess_board = (sessionAfter 19).chess_board ∧
    (sessionAfter 20).current_white_log = "" := by
  obtain ⟨_, _, _, hd, _, hf, hg, hh, _, hj⟩ := run_facts
  refine ⟨hj, hg, ?_, hf, hh⟩
  rw [hd]
  decide


/-- Success of an advance call is the same as the cursor moving one step. -/
lemma step_success_iff_increment (s : Session) :
    ((process_next_move_pair s).error_message = "" ↔
      (process_next_move_pair s).current_move_index = s.current_move_index + 1) ∧
    ((process_next_move_pair s).error_message ≠ "" ↔
      (process_next_move_pair s).current_move_index = s.current_move_index) := by
  rcases step_shape s with ⟨_, hstep⟩ | ⟨_, msg, hstep⟩ |
    ⟨w, lp, b1, _, _, _, _, hstep⟩ | ⟨w, bm, lp, b1, _, _, _, _, _, hstep⟩ |
    ⟨w, bm, lp, b1, b2, _, _, _, _, _, hstep⟩ <;> rw [hstep]
  · constructor
    · constructor
      · intro h
        exact absurd h gameOverMessage_ne
      · intro h
        have h2 : s.current_move_index = s.current_move_index + 1 := h
        omega
    · exact ⟨fun _ => rfl, fun _ => gameOverMessage_ne⟩
  · constructor
    · constructor
      · intro h
        exact absurd h (exceptState_error_ne s msg)
      · intro h
        have h2 : s.current_move_index = s.current_move_index + 1 := h
        omega
    · exact ⟨fun _ => rfl, fun _ => exceptState_error_ne s msg⟩
  · constructor
    · exact ⟨fun _ => rfl, fun _ => rfl⟩
    · constructor
      · intro h
        exact absurd rfl h
      · intro h
        have h2 : s.current_move_index + 1 = s.current_move_index := h
        omega
  · constructor
    · constructor
      · intro h
        exact absurd h (error_wrap_ne _)
      · intro h
        have h2 : s.current_move_index = s.current_move_index + 1 := h
        omega
    · exact ⟨fun _ => rfl, fun _ => error_wrap_ne _⟩
  · constructor
    · exact ⟨fun _ => rfl, fun _ => rfl⟩
    · constructor
      · intro h
        exact absurd rfl h
      · intro h
        have h2 : s.current_move_index + 1 = s.current_move_index := h
        omega

/-- On every failure path the error message is one single descriptive message. -/
lemma step_failure_message_shape (s : Session)
    (h : (process_next_move_pair s).error_message ≠ "") :
    (process_next_move_pair s).error_message = gameOverMessage ∨
      ∃ m, (process_next_move_pair s).error_message = "Error: " ++ m := by
  rcases step_shape s with ⟨_, hstep⟩ | ⟨_, msg, hstep⟩ |
    ⟨w, lp, b1, _, _, _, _, hstep⟩ | ⟨w, bm, lp, b1, _, _, _, _, _, hstep⟩ |
    ⟨w, bm, lp, b1, b2, _, _, _, _, _, hstep⟩ <;> rw [hstep] at h ⊢
  · exact Or.inl rfl
  · exact Or.inr ⟨msg, rfl⟩
  · exact absurd rfl h
  · exact Or.inr ⟨san_error_text bm, rfl⟩
  · exact absurd rfl h

/--
Claim C3: whenever the advance cursor has reached the end of the
script, the advance call fails with the game-already-over condition and
leaves the board, the cursor, the current-move logs and the move
history unchanged; only the error message is set.
-/
theorem C3_exhausted_cursor_only_sets_error (s : Session)
    (h : s.hardcoded_moves.length ≤ s.current_move_index) :
    process_next_move_pair s = { s with error_message := gameOverMessage } :=
  step_exhausted s h

/-- A session whose cursor stands past the end of the 20-pair script. -/
def c3session : Session :=
  { initSession with current_move_index := 20 }

/-- Witness for claim C3, at a concrete exhausted session. -/
theorem C3_witness :
    c3session.hardcoded_moves.length ≤ c3session.current_move_index ∧
    process_next_move_pair c3session = { c3session with error_message := gameOverMessage } :=
  ⟨by decide, C3_exhausted_cursor_only_sets_error c3session (by decide)⟩

/--
Claim C5: for an advance whose scheduled pair is a single-element pair
whose White half-move ends the game, no Black half-move is applied
during that advance (the resulting board carries exactly the White
half-move) and the pair is recorded with an empty Black entry: the
Black current-move log stays the empty string.
-/
theorem C5_game_ending_white_move_skips_black (s : Session) (w : String)
    (lp : String × String) (b1 : Board)
    (hidx : s.current_move_index < s.hardcoded_moves.length)
    (hp : s.hardcoded_moves.get? s.current_move_index = some (w, none))
    (hl : s.move_log_pairs.get? s.current_move_index = some lp)
    (hw : pushSan s.chess_board w = some b1)
    (_hover : isGameOver b1 = true) :
    process_next_move_pair s =
      { s with
        chess_board := b1
        current_white_log := lp.1
        current_black_log := ""
        current_move_index := s.current_move_index + 1
        error_message := "" } :=
  step_single_success s w lp b1 hidx hp hl hw

/-- The position after 1 e4 e5 2 Qh5 Nc6 3 Bc4 Nf6, where Qxf7 is mate. -/
def scholarsBoard : Board :=
  (pushSans startBoard ["e4", "e5", "Qh5", "Nc6", "Bc4", "Nf6"]).getD startBoard

/-- The checkmate position after Qxf7 on scholarsBoard. -/
def scholarsMateBoard : Board :=
  (pushSan scholarsBoard "Qxf7#").getD startBoard

/-- A session whose scheduled single-element pair delivers checkmate. -/
def c5session : Session :=
  { initSession with
    chess_board := scholarsBoard
    hardcoded_moves := [("Qxf7#", none)]
    move_log_pairs := [("White delivered the scholars mate", "")] }

/-- Witness for claim C5, at a concrete game-ending single-move pair. -/
theorem C5_witness :
    c5session.current_move_index < c5session.hardcoded_moves.length ∧
    c5session.hardcoded_moves.get? c5session.current_move_index = some ("Qxf7#", none) ∧
    c5session.move_log_pairs.get? c5session.current_move_index =
      some ("White delivered the scholars mate", "") ∧
    pushSan c5session.chess_board "Qxf7#" = some scholarsMateBoard ∧
    isGameOver scholarsMateBoard = true ∧
    process_next_move_pair c5session =
      { c5session with
        chess_board := scholarsMateBoard
        current_white_log := "White delivered the scholars mate"
        current_black_log := ""
        current_move_index := 1
        error_message := "" } :=
  ⟨by decide, by decide, by decide, by decide, by decide,
    C5_game_ending_white_move_skips_black c5session "Qxf7#"
      ("White delivered the scholars mate", "") scholarsMateBoard
      (by decide) (by decide) (by decide) (by decide) (by decide)⟩

/--
Claim C6 as amended: when a scripted SAN half-move is rejected, the
advance fails with an error; the board mutation for that half-move is
all-or-nothing (the board is left exactly as before that half-move, so
a rejected Black half-move keeps only the applied White half-move) and
the cursor and histories are unchanged, but beside the error message
the two current-move log fields are also changed: the except handler
clears both to the empty string.
-/
theorem C6_amended_theorem (s : Session) (p : String × Option String) (lp : String × String)
    (hidx : s.current_move_index < s.hardcoded_moves.length)
    (hp : s.hardcoded_moves.get? s.current_move_index = some p)
    (hl : s.move_log_pairs.get? s.current_move_index = some lp) :
    (pushSan s.chess_board p.1 = none →
      process_next_move_pair s =
        { s with
          error_message := "Error: " ++ san_error_text p.1
          current_white_log := ""
          current_black_log := "" }) ∧
    (∀ b1 bm, p.2 = some bm → pushSan s.chess_board p.1 = some b1 → pushSan b1 bm = none →
      process_next_move_pair s =
        { s with
          chess_board := b1
          error_message := "Error: " ++ san_error_text bm
          current_white_log := ""
          current_black_log := "" }) := by
  constructor
  · intro hw
    exact step_white_fail s p lp hidx hp hl hw
  · intro b1 bm hpb hw hb
    have hpe : p = (p.1, some bm) := by rw [← hpb]
    rw [hpe] at hp
    exact step_black_fail s p.1 bm lp b1 hidx hp hl hw hb

/-- A session whose scheduled White half-move is illegal on its board. -/
def c6session : Session :=
  { initSession with hardcoded_moves := [("Ke2", some "e5")] }

/-- Witness for claim C6, at a concrete rejected White half-move. -/
theorem C6_witness :
    c6session.current_move_index < c6session.hardcoded_moves.length ∧
    c6session.hardcoded_moves.get? c6session.current_move_index = some ("Ke2", some "e5") ∧
    c6session.move_log_pairs.get? c6session.current_move_index =
      some ("Deepseek R1 (White) played e4 to control the center",
        "Legacy Stockfish (Black) played e5 to contest central control") ∧
    pushSan c6session.chess_board "Ke2" = none ∧
    process_next_move_pair c6session =
      { c6session with
        error_message := "Error: " ++ san_error_text "Ke2"
        current_white_log := ""
        current_black_log := "" } :=
  ⟨by decide, by decide, by decide, by decide,
    (C6_amended_theorem c6session ("Ke2", some "e5")
      ("Deepseek R1 (White) played e4 to control the center",
        "Legacy Stockfish (Black) played e5 to contest central control")
      (by decide) (by decide) (by decide)).1 (by decide)⟩

/--
Claim C7: every advance attempt overwrites the session error message:
the cursor either stays or moves one step; on every success path the
error message is cleared to the empty string; on every failure path it
is set to one single descriptive message (the game-over message or one
Error-prefixed message) and is never empty; and the outcome of the
advance does not depend on the previous error message, so messages are
never accumulated.
-/
theorem C7_error_overwritten_every_attempt (s : Session) :
    ((process_next_move_pair s).current_move_index = s.current_move_index ∨
      (process_next_move_pair s).current_move_index = s.current_move_index + 1) ∧
    ((process_next_move_pair s).current_move_index = s.current_move_index + 1 →
      (process_next_move_pair s).error_message = "") ∧
    ((process_next_move_pair s).current_move_index = s.current_move_index →
      (process_next_move_pair s).error_message ≠ "" ∧
      ((process_next_move_pair s).error_message = gameOverMessage ∨
        ∃ m, (process_next_move_pair s).error_message = "Error: " ++ m)) ∧
    (∀ e, process_next_move_pair { s with error_message := e } = process_next_move_pair s) := by
  obtain ⟨hsucc, hfail⟩ := step_success_iff_increment s
  refine ⟨?_, ?_, ?_, fun e => step_error_irrelevant s e⟩
  · by_cases h : (process_next_move_pair s).error_message = ""
    · exact Or.inr (hsucc.mp h)
    · exact Or.inl (hfail.mp h)
  · exact hsucc.mpr
  · intro h
    have hne : (process_next_move_pair s).error_message ≠ "" := hfail.mpr h
    exact ⟨hne, step_failure_message_shape s hne⟩

/-- Witness for claim C7, at the fresh session whose first advance succeeds. -/
theorem C7_witness :
    (process_next_move_pair initSession).current_move_index =
      initSession.current_move_index + 1 ∧
    (process_next_move_pair initSession).error_message = "" :=
  ⟨by decide, (C7_error_overwritten_every_attempt initSession).2.1 (by decide)⟩


/-- Appending one element not yet present keeps a list duplicate-free. -/
lemma nodup_snoc {a : Type} [DecidableEq a] (l : List a) (x : a)
    (h : l.Nodup) (hx : x ∉ l) : (l ++ [x]).Nodup := by
  simp [List.nodup_append, h, hx]

/--
Claim C8: the chronological move-history transcript never contains two
byte-identical entries.  The history starts empty; on every rerun of
the page logic a current-move log string is appended only if it is not
already present, so a duplicate-free history stays duplicate-free, and
existing entries are never deleted or reordered: the previous history
is a prefix of the new one.
-/
theorem C8_history_deduplicated (s : Session) (h : s.move_history.Nodup) :
    initSession.move_history = [] ∧
    (append_move_history s).move_history.Nodup ∧
    ∃ t, (append_move_history s).move_history = s.move_history ++ t := by
  refine ⟨rfl, ?_⟩
  unfold append_move_history
  dsimp only
  split_ifs with h1 h2 h3
  · exact ⟨nodup_snoc _ _ (nodup_snoc _ _ h h1.2) h2.2,
      ⟨[s.current_white_log, s.current_black_log], by simp⟩⟩
  · exact ⟨nodup_snoc _ _ h h1.2, ⟨[s.current_white_log], rfl⟩⟩
  · exact ⟨nodup_snoc _ _ h h3.2, ⟨[s.current_black_log], rfl⟩⟩
  · exact ⟨h, ⟨[], by simp⟩⟩

/-- A session about to rerun the page logic with a duplicate log string. -/
def c8session : Session :=
  { initSession with
    current_white_log := "Deepseek R1 advanced f4 to open lines"
    current_black_log := "Deepseek R1 advanced f4 to open lines"
    move_history := ["Deepseek R1 (White) played e4 to control the center"] }

/-- Witness for claim C8, at a concrete history and pair of log strings. -/
theorem C8_witness :
    c8session.move_history.Nodup ∧
    (initSession.move_history = [] ∧
      (append_move_history c8session).move_history.Nodup ∧
      ∃ t, (append_move_history c8session).move_history = c8session.move_history ++ t) :=
  ⟨by decide, C8_history_deduplicated c8session (by decide)⟩

/--
Claim C9: the advance cursor is incremented exactly once per fully
successful advance and is unchanged whenever the advance fails; in
particular, when the White half-move was applied and the Black
half-move then fails, the board keeps the White half-move while the
cursor does not move, so the next advance attempt re-applies the same
pair White SAN move against the already-advanced board.
-/
theorem C9_cursor_only_moves_on_success (s : Session) :
    ((process_next_move_pair s).error_message = "" →
      (process_next_move_pair s).current_move_index = s.current_move_index + 1) ∧
    ((process_next_move_pair s).error_message ≠ "" →
      (process_next_move_pair s).current_move_index = s.current_move_index) ∧
    (∀ p lp b1 bm,
      s.current_move_index < s.hardcoded_moves.length →
      s.hardcoded_moves.get? s.current_move_index = some p →
      s.move_log_pairs.get? s.current_move_index = some lp →
      p.2 = some bm →
      pushSan s.chess_board p.1 = some b1 →
      pushSan b1 bm = none →
      (process_next_move_pair s).chess_board = b1 ∧
      (process_next_move_pair s).current_move_index = s.current_move_index ∧
      scheduled_white_push (process_next_move_pair s) = some (pushSan b1 p.1)) := by
  obtain ⟨hsucc, hfail⟩ := step_success_iff_increment s
  refine ⟨hsucc.mp, hfail.mp, ?_⟩
  intro p lp b1 bm hidx hp hl hpb hw hb
  have hpe : p = (p.1, some bm) := by rw [← hpb]
  rw [hpe] at hp
  have hstep := step_black_fail s p.1 bm lp b1 hidx hp hl hw hb
  rw [hstep]
  refine ⟨rfl, rfl, ?_⟩
  unfold scheduled_white_push
  dsimp only
  rw [hp]
  rfl

/-- A session whose scheduled pair has a legal White and an illegal Black half-move. -/
def c9session : Session :=
  { initSession with hardcoded_moves := [("e4", some "e4")] }

/-- The board of c9session after its White half-move. -/
def c9afterWhite : Board :=
  (pushSan startBoard "e4").getD startBoard

/-- Witness for claim C9, at a concrete Black-half-move failure. -/
theorem C9_witness :
    c9session.current_move_index < c9session.hardcoded_moves.length ∧
    c9session.hardcoded_moves.get? c9session.current_move_index = some ("e4", some "e4") ∧
    c9session.move_log_pairs.get? c9session.current_move_index =
      some ("Deepseek R1 (White) played e4 to control the center",
        "Legacy Stockfish (Black) played e5 to contest central control") ∧
    pushSan c9session.chess_board "e4" = some c9afterWhite ∧
    pushSan c9afterWhite "e4" = none ∧
    ((process_next_move_pair c9session).chess_board = c9afterWhite ∧
      (process_next_move_pair c9session).current_move_index = c9session.current_move_index ∧
      scheduled_white_push (process_next_move_pair c9session) =
        some (pushSan c9afterWhite "e4")) :=
  ⟨by decide, by decide, by decide, by decide, by decide,
    (C9_cursor_only_moves_on_success c9session).2.2 ("e4", some "e4")
      ("Deepseek R1 (White) played e4 to control the center",
        "Legacy Stockfish (Black) played e5 to contest central control")
      c9afterWhite "e4" (by decide) (by decide) (by decide) (by decide) (by decide) (by decide)⟩

/--
Claim C10: the hardcoded move script and the hardcoded log-pair list
both have exactly 20 entries, so every advance whose cursor passes the
exhaustion guard finds the log pair at the same index in bounds and the
lookup never fails.
-/
theorem C10_log_lookup_in_bounds (s : Session)
    (hm : s.hardcoded_moves = hardcoded_moves)
    (hl : s.move_log_pairs = move_log_pairs)
    (hidx : s.current_move_index < s.hardcoded_moves.length) :
    s.hardcoded_moves.length = 20 ∧ s.move_log_pairs.length = 20 ∧
    (s.move_log_pairs.get? s.current_move_index).isSome = true := by
  rw [hm] at hidx
  rw [hm, hl]
  refine ⟨by decide, by decide, ?_⟩
  have h1 : hardcoded_moves.length = 20 := by decide
  have h2 : move_log_pairs.length = 20 := by decide
  have h3 : s.current_move_index < move_log_pairs.length := by omega
  rw [List.get?_eq_get h3]
  rfl

/-- Witness for claim C10, at the fresh session. -/
theorem C10_witness :
    initSession.hardcoded_moves = hardcoded_moves ∧
    initSession.move_log_pairs = move_log_pairs ∧
    initSession.current_move_index < initSession.hardcoded_moves.length ∧
    (initSession.hardcoded_moves.length = 20 ∧ initSession.move_log_pairs.length = 20 ∧
      (initSession.move_log_pairs.get? initSession.current_move_index).isSome = true) :=
  ⟨rfl, rfl, by decide, C10_log_lookup_in_bounds initSession rfl rfl (by decide)⟩

end ImmortalDemo
